import Mathlib

/-!
# Verification of the Sonatype Central Publisher client

Shallow embedding of `sonatype-central-publisher.py` and proofs about its
deployment-lifecycle client: the `wait_for_deployment` polling loop, the
`upload_bundle` response/resource handling, `publish_deployment`, and the
base64 authorization header.

Modelling conventions:
* a status-check result (`check_deployment_status`) is `Option DeploymentStatus`:
  `none` when the call printed an error and returned `None`, `some st` when it
  returned the parsed JSON status;
* printed diagnostics are modelled as lists of strings (the error "payload");
* wall-clock time is modelled as the total time slept: each `time.sleep(check_interval)`
  advances the clock by `check_interval`, status checks themselves take no model time;
* the polling loop is given the stream of successive check results
  `checks : Nat → Option DeploymentStatus` as an explicit input.
-/

/-- The fields of the JSON status object that `wait_for_deployment` reads:
`status.get('deploymentState')` (absent key gives `None`, hence `Option`) and
`status.get('errors', [])`. -/
structure DeploymentStatus where
  deploymentState : Option String
  errors : List String
deriving DecidableEq, Repr

/-- The polling loop of `wait_for_deployment` (source lines 226–252).

Arguments `fuel i elapsed`: `fuel` bounds the remaining iterations (chosen large
enough at the top level that it never runs out before the timeout check fires),
`i` indexes the next status check, `elapsed` is `time.time() - start_time`.

Per iteration, mirroring the source:
* `while time.time() - start_time < timeout` — the `elapsed < timeout` guard;
* `if not status: ... sleep; continue` — the `none` branch;
* `if current_state == target_state: return status`;
* `if current_state == "FAILED": return status`;
* otherwise `sleep(check_interval)` and loop.

Returns the Python return value (`some status` or `none` for the timeout path)
paired with the final elapsed clock. -/
def wait_go (checks : Nat → Option DeploymentStatus) (target_state : String)
    (check_interval timeout : Nat) :
    Nat → Nat → Nat → Option DeploymentStatus × Nat
  | 0, _, elapsed => (none, elapsed)
  | fuel + 1, i, elapsed =>
    if elapsed < timeout then
      match checks i with
      | none =>
          wait_go checks target_state check_interval timeout fuel (i + 1)
            (elapsed + check_interval)
      | some status =>
          if status.deploymentState = some target_state then (some status, elapsed)
          else if status.deploymentState = some "FAILED" then (some status, elapsed)
          else
            wait_go checks target_state check_interval timeout fuel (i + 1)
              (elapsed + check_interval)
    else (none, elapsed)

/-- Model of `wait_for_deployment(deployment_id, target_state="PUBLISHED", check_interval=10, timeout=1800)`.
The deployment id is absorbed into the `checks` stream (it only selects which
deployment the checks observe).  Fuel `timeout + 1` suffices whenever
`1 ≤ check_interval`: after `timeout + 1` iterations the clock is at least
`timeout + 1`, so the loop guard has already stopped the loop. -/
def wait_for_deployment (checks : Nat → Option DeploymentStatus)
    (target_state : String := "PUBLISHED") (check_interval : Nat := 10)
    (timeout : Nat := 1800) : Option DeploymentStatus × Nat :=
  wait_go checks target_state check_interval timeout (timeout + 1) 0 0

/-- An HTTP response as received by the client: `response.status_code` and
`response.text`. -/
structure HttpResponse where
  status_code : Nat
  text : String
deriving DecidableEq, Repr

/-- The outcome of a `requests.post`/`requests.delete` call: either a response
was received, or the call raised (connection refused, timeout, DNS failure,
...). -/
inductive RequestResult where
  | success (r : HttpResponse)
  | raised (msg : String)
deriving DecidableEq, Repr

/-- The opened bundle file; `closes` counts how many times `.close()` has run
on this handle. -/
structure FileHandle where
  closes : Nat
deriving DecidableEq, Repr

def FileHandle.close (h : FileHandle) : FileHandle := ⟨h.closes + 1⟩

/-- Python `try/except/finally` in the shape `upload_bundle` uses it: the
`except Exception` handler catches every raised exception and returns
normally, and the `finally` block runs exactly once on the way out of either
path.  The state `σ` threads the mutable resource (the file handle). -/
def tryExceptFinally {σ α : Type} (body : σ → Except String α × σ)
    (handler : String → σ → α × σ) (cleanup : σ → σ) (s : σ) : α × σ :=
  match body s with
  | (Except.ok a, s1) => (a, cleanup s1)
  | (Except.error msg, s1) =>
      let r := handler msg s1
      (r.1, cleanup r.2)

/-- Lines 82–89 of `upload_bundle`: handling of a received HTTP response.
Returns the Python return value (`some deployment_id` on 201, `none`
otherwise) paired with the printed lines; on the error path those lines carry
the status code and the raw body — the content of an upload error report. -/
def upload_handle_response (response : HttpResponse) : Option String × List String :=
  if response.status_code = 201 then
    (some response.text.trim,
      ["Upload successful! Deployment ID: " ++ response.text.trim])
  else
    (none,
      ["Error uploading bundle: " ++ toString response.status_code, response.text])

/-- The `try` body of `upload_bundle` (lines 74–89): a raised transport
exception escapes to the `except` handler, a received response is handled by
`upload_handle_response`.  The handle is not touched here. -/
def upload_try_block (req : RequestResult) (h : FileHandle) :
    Except String (Option String × List String) × FileHandle :=
  match req with
  | RequestResult.raised msg => (Except.error msg, h)
  | RequestResult.success r => (Except.ok (upload_handle_response r), h)

/-- The rest of `upload_bundle` after a successful `open` (lines 74–95): the `try` block,
the `except` handler (lines 90–92: print the exception, return `None`), and
the `finally` block (lines 93–95) closing the opened file handle. -/
def upload_after_open (req : RequestResult) (h : FileHandle) :
    (Option String × List String) × FileHandle :=
  tryExceptFinally (upload_try_block req)
    (fun msg h1 => ((none, ["Error uploading bundle: " ++ msg]), h1))
    FileHandle.close h

/-- The result of a Python call as seen by its caller: a normal return or an
uncaught exception. -/
inductive PyResult (α : Type) where
  | ret (a : α)
  | raise (msg : String)
deriving DecidableEq, Repr

/-- All of `upload_bundle` (lines 69–95).  The `open(bundle_path, "rb")` on
line 70 happens *before* the `try` block, so if it raises there is no handler
and no `finally` in scope yet and the exception propagates uncaught; only
after a successful open does `upload_after_open` govern the request. -/
def upload_bundle (openResult : PyResult FileHandle) (req : RequestResult) :
    PyResult ((Option String × List String) × FileHandle) :=
  match openResult with
  | PyResult.raise msg => PyResult.raise msg
  | PyResult.ret h => PyResult.ret (upload_after_open req h)

/-- Model of `publish_deployment` (lines 148–177) given the outcome of the POST:
returns the Python return value (`True` on 204, `False` otherwise) paired with
the printed lines, which on the error path carry the status code and raw
body. -/
def publish_deployment (req : RequestResult) : Bool × List String :=
  match req with
  | RequestResult.raised msg => (false, ["Error publishing deployment: " ++ msg])
  | RequestResult.success r =>
      if r.status_code = 204 then (true, ["Deployment published successfully!"])
      else
        (false,
          ["Error publishing deployment: " ++ toString r.status_code, r.text])

/-- The publish branch of `main` (lines 354–357): whether `wait_for_deployment`
is chained after the publish call — only when `publish_deployment` succeeded
and `--wait` was given. -/
def publish_command_invokes_wait (req : RequestResult) (wait_flag : Bool) : Bool :=
  (publish_deployment req).1 && wait_flag

/-- UTF-8 encoding of one character (what Python `str.encode()` does per code
point), as natural-number bytes. -/
def utf8CharBytes (c : Char) : List Nat :=
  if c.toNat < 128 then [c.toNat]
  else if c.toNat < 2048 then [192 + c.toNat / 64, 128 + c.toNat % 64]
  else if c.toNat < 65536 then
    [224 + c.toNat / 4096, 128 + c.toNat / 64 % 64, 128 + c.toNat % 64]
  else
    [240 + c.toNat / 262144, 128 + c.toNat / 4096 % 64, 128 + c.toNat / 64 % 64,
      128 + c.toNat % 64]

/-- The UTF-8 bytes of a string (`str.encode()`). -/
def utf8Bytes (s : String) : List Nat := s.data.flatMap utf8CharBytes

/-- The standard base64 alphabet: value `n` to its character. -/
def b64char (n : Nat) : Char :=
  if n < 26 then Char.ofNat (65 + n)
  else if n < 52 then Char.ofNat (71 + n)
  else if n < 62 then Char.ofNat (n - 4)
  else if n = 62 then '+'
  else '/'

/-- Standard base64 encoding (`base64.b64encode`): bytes to characters, three
bytes to four sextets, with `'='` padding. -/
def b64encode : List Nat → List Char
  | [] => []
  | [b1] => [b64char (b1 / 4), b64char (b1 % 4 * 16), '=', '=']
  | [b1, b2] =>
      [b64char (b1 / 4), b64char (b1 % 4 * 16 + b2 / 16), b64char (b2 % 16 * 4),
        '=']
  | b1 :: b2 :: b3 :: rest =>
      b64char (b1 / 4) :: b64char (b1 % 4 * 16 + b2 / 16) ::
        b64char (b2 % 16 * 4 + b3 / 64) :: b64char (b3 % 64) :: b64encode rest

/-- Sextet values regrouped into bytes (the inverse of the 6-bit split). -/
def sextetsToBytes : List Nat → List Nat
  | s1 :: s2 :: s3 :: s4 :: rest =>
      (s1 * 4 + s2 / 16) :: (s2 % 16 * 16 + s3 / 4) :: (s3 % 4 * 64 + s4) ::
        sextetsToBytes rest
  | [s1, s2, s3] => [s1 * 4 + s2 / 16, s2 % 16 * 16 + s3 / 4]
  | [s1, s2] => [s1 * 4 + s2 / 16]
  | _ => []

/-- The sextet value of a base64 alphabet character. -/
def b64value (c : Char) : Nat :=
  if 65 ≤ c.toNat ∧ c.toNat ≤ 90 then c.toNat - 65
  else if 97 ≤ c.toNat ∧ c.toNat ≤ 122 then c.toNat - 71
  else if 48 ≤ c.toNat ∧ c.toNat ≤ 57 then c.toNat + 4
  else if c = '+' then 62
  else 63

/-- Standard base64 decoding: drop the padding, map characters back to sextet
values, regroup into bytes. -/
def b64decode (cs : List Char) : List Nat :=
  sextetsToBytes ((cs.filter (fun c => c != '=')).map b64value)

/-- Model of `get_auth_header` (lines 42–44): the value of the `Authorization` header,
`f"Bearer {base64.b64encode((username + ":" + password).encode())}"`. -/
def get_auth_header (username password : String) : String :=
  "Bearer " ++ String.mk (b64encode (utf8Bytes (username ++ ":" ++ password)))

example :
    wait_for_deployment (fun _ => some ⟨some "PUBLISHED", []⟩) "PUBLISHED" 1 3 =
      (some ⟨some "PUBLISHED", []⟩, 0) := by decide

example :
    wait_for_deployment (fun _ => some ⟨some "VALIDATING", []⟩) "PUBLISHED" 1 3 =
      (none, 3) := by decide

example :
    wait_for_deployment (fun _ => some ⟨some "PUBLISHED", []⟩) "VALIDATED" 1 3 =
      (none, 3) := by decide

/-- One iteration of the loop on a successful status check: the loop returns the
status right there exactly when the observed state equals the target state or
equals `"FAILED"`; otherwise it sleeps one interval and continues. -/
lemma wait_go_step (checks : Nat → Option DeploymentStatus) (target : String)
    (I T fuel i e : Nat) (st : DeploymentStatus)
    (he : e < T) (hc : checks i = some st) :
    wait_go checks target I T (fuel + 1) i e =
      if st.deploymentState = some target ∨ st.deploymentState = some "FAILED" then
        (some st, e)
      else wait_go checks target I T fuel (i + 1) (e + I) := by
  rw [wait_go, if_pos he, hc]
  by_cases h1 : st.deploymentState = some target
  · simp [h1]
  · by_cases h2 : st.deploymentState = some "FAILED"
    · simp [h1, h2]
    · simp [h1, h2]

/-- One iteration of the loop on a failed status check (`if not status`): the
loop sleeps one interval and retries. -/
lemma wait_go_fail_step (checks : Nat → Option DeploymentStatus) (target : String)
    (I T fuel i e : Nat) (he : e < T) (hc : checks i = none) :
    wait_go checks target I T (fuel + 1) i e =
      wait_go checks target I T fuel (i + 1) (e + I) := by
  rw [wait_go, if_pos he, hc]

/-- A run of `k` consecutive failed checks consumes `k` sleeps of one interval each and
leave the loop polling at check index `i + k` with the clock advanced by
`k * I`, provided the timeout never fires meanwhile. -/
lemma wait_go_skip_failures (checks : Nat → Option DeploymentStatus) (target : String)
    (I T : Nat) :
    ∀ (k f i e : Nat), (∀ j, j < k → checks (i + j) = none) →
      e + k * I < T →
      wait_go checks target I T (k + f) i e =
        wait_go checks target I T f (i + k) (e + k * I) := by
  intro k
  induction k with
  | zero => intro f i e _ _; simp
  | succ k ih =>
    intro f i e hnone hlt
    have he : e < T := lt_of_le_of_lt (Nat.le_add_right _ _) hlt
    have h0 : checks i = none := by simpa using hnone 0 (Nat.succ_pos k)
    rw [show k + 1 + f = (k + f) + 1 from by omega, wait_go, if_pos he, h0]
    have hlt' : (e + I) + k * I < T := by
      have hx : e + (k + 1) * I = (e + I) + k * I := by ring
      rwa [hx] at hlt
    have hrec := ih f (i + 1) (e + I)
      (fun j hj => by
        have := hnone (j + 1) (by omega)
        simpa [Nat.add_assoc, Nat.add_comm 1 j] using this)
      hlt'
    rw [hrec, show i + 1 + k = i + (k + 1) from by omega,
      show e + I + k * I = e + (k + 1) * I from by ring]

/-- If no check ever reports the target state or `"FAILED"`, the loop's return
value is `none` (the Python `None` of the timeout path). -/
lemma wait_go_no_terminal (checks : Nat → Option DeploymentStatus) (target : String)
    (I T : Nat)
    (h : ∀ i st, checks i = some st →
      st.deploymentState ≠ some target ∧ st.deploymentState ≠ some "FAILED") :
    ∀ fuel i e, (wait_go checks target I T fuel i e).1 = none := by
  intro fuel
  induction fuel with
  | zero => intro i e; simp [wait_go]
  | succ fuel ih =>
    intro i e
    by_cases he : e < T
    · cases hc : checks i with
      | none =>
        rw [wait_go_fail_step checks target I T fuel i e he hc]
        exact ih (i + 1) (e + I)
      | some st =>
        obtain ⟨h1, h2⟩ := h i st hc
        rw [wait_go_step checks target I T fuel i e st he hc,
          if_neg (by simp [h1, h2])]
        exact ih (i + 1) (e + I)
    · rw [wait_go, if_neg he]

/-- When the loop returns `none`, the final clock is at least the timeout,
provided the fuel budget covers the timeout. -/
lemma wait_go_timeout_le (checks : Nat → Option DeploymentStatus) (target : String)
    (I T : Nat) :
    ∀ fuel i e, T ≤ e + fuel * I →
      (wait_go checks target I T fuel i e).1 = none →
      T ≤ (wait_go checks target I T fuel i e).2 := by
  intro fuel
  induction fuel with
  | zero =>
    intro i e hle _
    simpa [wait_go] using by simpa using hle
  | succ fuel ih =>
    intro i e hle hnone
    by_cases he : e < T
    · have hle' : T ≤ (e + I) + fuel * I := by
        have hx : e + (fuel + 1) * I = (e + I) + fuel * I := by ring
        rwa [hx] at hle
      cases hc : checks i with
      | none =>
        rw [wait_go_fail_step checks target I T fuel i e he hc] at hnone ⊢
        exact ih (i + 1) (e + I) hle' hnone
      | some st =>
        rw [wait_go_step checks target I T fuel i e st he hc] at hnone ⊢
        by_cases hterm : st.deploymentState = some target ∨
            st.deploymentState = some "FAILED"
        · rw [if_pos hterm] at hnone
          simp at hnone
        · rw [if_neg hterm] at hnone ⊢
          exact ih (i + 1) (e + I) hle' hnone
    · rw [wait_go, if_neg he] at hnone ⊢
      omega

/-- The final clock always exceeds the starting clock by a whole number of
sleep intervals: every sleep in the loop is exactly one fixed interval. -/
lemma wait_go_elapsed (checks : Nat → Option DeploymentStatus) (target : String)
    (I T : Nat) :
    ∀ fuel i e, ∃ n, (wait_go checks target I T fuel i e).2 = e + n * I := by
  intro fuel
  induction fuel with
  | zero => intro i e; exact ⟨0, by simp [wait_go]⟩
  | succ fuel ih =>
    intro i e
    by_cases he : e < T
    · cases hc : checks i with
      | none =>
        obtain ⟨n, hn⟩ := ih (i + 1) (e + I)
        refine ⟨n + 1, ?_⟩
        rw [wait_go_fail_step checks target I T fuel i e he hc, hn]; ring
      | some st =>
        by_cases hterm : st.deploymentState = some target ∨
            st.deploymentState = some "FAILED"
        · refine ⟨0, ?_⟩
          rw [wait_go_step checks target I T fuel i e st he hc, if_pos hterm]
          simp
        · obtain ⟨n, hn⟩ := ih (i + 1) (e + I)
          refine ⟨n + 1, ?_⟩
          rw [wait_go_step checks target I T fuel i e st he hc, if_neg hterm, hn]
          ring
    · exact ⟨0, by rw [wait_go, if_neg he]; simp⟩

/-- C1 (counterexample): the claim says PUBLISHED terminates the loop for every
`targetState` argument.  It does not: with `target_state = "VALIDATED"` and a
server that always reports `"PUBLISHED"`, the loop never stops on an
observation — it polls until the timeout path returns `none` (here after three
one-second sleeps, clock 3), even though every observed state was PUBLISHED. -/
theorem wait_published_not_terminal_for_other_target :
    wait_for_deployment (fun _ => some ⟨some "PUBLISHED", []⟩) "VALIDATED" 1 3 =
      (none, 3) := by decide

/-- C1 (amended): polling stops on an observed status exactly when its state
equals the `target_state` argument or equals `"FAILED"`; every other state
string, including unrecognized ones, causes one more sleep and a retry.  (With
the default `target_state = "PUBLISHED"` the stopping set is exactly
{PUBLISHED, FAILED}.) -/
theorem wait_stops_iff_target_or_failed (checks : Nat → Option DeploymentStatus)
    (target : String) (I T fuel i e : Nat) (st : DeploymentStatus)
    (he : e < T) (hc : checks i = some st) :
    wait_go checks target I T (fuel + 1) i e =
      if st.deploymentState = some target ∨ st.deploymentState = some "FAILED" then
        (some st, e)
      else wait_go checks target I T fuel (i + 1) (e + I) :=
  wait_go_step checks target I T fuel i e st he hc

theorem wait_stops_iff_target_or_failed_witness :
    wait_go (fun _ => some ⟨some "VALIDATING", []⟩) "PUBLISHED" 1 3 3 0 0 =
      if (⟨some "VALIDATING", []⟩ : DeploymentStatus).deploymentState =
            some "PUBLISHED" ∨
          (⟨some "VALIDATING", []⟩ : DeploymentStatus).deploymentState =
            some "FAILED" then
        (some ⟨some "VALIDATING", []⟩, 0)
      else wait_go (fun _ => some ⟨some "VALIDATING", []⟩) "PUBLISHED" 1 3 2 1 1 :=
  wait_stops_iff_target_or_failed (fun _ => some ⟨some "VALIDATING", []⟩)
    "PUBLISHED" 1 3 2 0 0 ⟨some "VALIDATING", []⟩ (by decide) rfl

/-- C2: if a status check reports state `"FAILED"`, the loop returns that very
status on that iteration with the clock unchanged (no further sleep, no further
polling), whatever the `target_state` argument is. -/
theorem wait_failed_short_circuits (checks : Nat → Option DeploymentStatus)
    (target : String) (I T fuel i e : Nat) (st : DeploymentStatus)
    (he : e < T) (hc : checks i = some st)
    (hf : st.deploymentState = some "FAILED") :
    wait_go checks target I T (fuel + 1) i e = (some st, e) := by
  rw [wait_go_step checks target I T fuel i e st he hc, if_pos (Or.inr hf)]

theorem wait_failed_short_circuits_witness :
    wait_go (fun _ => some ⟨some "FAILED", ["bad pom"]⟩) "PUBLISHED" 10 1800 5 0 0 =
      (some ⟨some "FAILED", ["bad pom"]⟩, 0) :=
  wait_failed_short_circuits (fun _ => some ⟨some "FAILED", ["bad pom"]⟩)
    "PUBLISHED" 10 1800 4 0 0 ⟨some "FAILED", ["bad pom"]⟩ (by decide) rfl rfl

/-- C3: `k` consecutive failed status checks (with `k * I < T`, i.e. `k` below
the timeout/interval budget) are each absorbed by one interval of sleep and a
retry; once the next check reports the target state the call returns that
status, with exactly `k` intervals spent on the failures. -/
theorem wait_tolerates_transient_failures (k : Nat) (target : String) (I T : Nat)
    (st : DeploymentStatus) (hI : 1 ≤ I) (hk : k * I < T)
    (hst : st.deploymentState = some target) :
    wait_for_deployment (fun i => if i < k then none else some st) target I T =
      (some st, k * I) := by
  have hkk : k ≤ k * I := by
    calc k = k * 1 := by ring
      _ ≤ k * I := Nat.mul_le_mul_left k hI
  have hkT : k < T := lt_of_le_of_lt hkk hk
  unfold wait_for_deployment
  rw [show T + 1 = k + (T - k + 1) from by omega,
    wait_go_skip_failures _ target I T k (T - k + 1) 0 0
      (fun j hj => by simp [hj]) (by simpa using hk),
    Nat.zero_add, Nat.zero_add,
    wait_go_step _ target I T (T - k) k (k * I) st hk (by simp),
    if_pos (Or.inl hst)]

theorem wait_tolerates_transient_failures_witness :
    wait_for_deployment
        (fun i => if i < 2 then none else some ⟨some "PUBLISHED", []⟩)
        "PUBLISHED" 1 4 =
      (some ⟨some "PUBLISHED", []⟩, 2 * 1) :=
  wait_tolerates_transient_failures 2 "PUBLISHED" 1 4 ⟨some "PUBLISHED", []⟩
    (by decide) (by decide) rfl

/-- C4: if no status check ever reports the target state or `"FAILED"`, the
call returns `none` (the timeout signal, no deployment status), and it does so
only once the clock has reached the timeout.  The loop is a pure observer: its
result is a function of the observed check stream alone, and the deployment is
never written to. -/
theorem wait_timeout_returns_none (checks : Nat → Option DeploymentStatus)
    (target : String) (I T : Nat) (hI : 1 ≤ I)
    (h : ∀ i st, checks i = some st →
      st.deploymentState ≠ some target ∧ st.deploymentState ≠ some "FAILED") :
    (wait_for_deployment checks target I T).1 = none ∧
    T ≤ (wait_for_deployment checks target I T).2 := by
  have h1 := wait_go_no_terminal checks target I T h (T + 1) 0 0
  refine ⟨h1, ?_⟩
  have hfuel : T ≤ 0 + (T + 1) * I := by
    have h2 : T + 1 ≤ (T + 1) * I := by
      calc T + 1 = (T + 1) * 1 := by ring
        _ ≤ (T + 1) * I := Nat.mul_le_mul_left (T + 1) hI
    linarith
  exact wait_go_timeout_le checks target I T (T + 1) 0 0 hfuel h1

theorem wait_timeout_returns_none_witness :
    (wait_for_deployment (fun _ => some ⟨some "VALIDATING", []⟩)
        "PUBLISHED" 1 3).1 = none ∧
    3 ≤ (wait_for_deployment (fun _ => some ⟨some "VALIDATING", []⟩)
        "PUBLISHED" 1 3).2 :=
  wait_timeout_returns_none (fun _ => some ⟨some "VALIDATING", []⟩)
    "PUBLISHED" 1 3 (by decide)
    (fun i st hst => by
      injection hst with hst
      subst hst
      exact ⟨by decide, by decide⟩)

/-- C9: every sleep in one wait call is exactly one fixed interval — the final
clock is always a whole number of intervals, there is no backoff — and a
timeout return happens only at or after the `timeout` mark; it is not exact:
with interval 2 and timeout 3 and every check failing, a full sleep restarts
after the failure at clock 2 and the call returns at clock 4 > 3. -/
theorem wait_sleep_restarts_full_interval (checks : Nat → Option DeploymentStatus)
    (target : String) (I T : Nat) (hI : 1 ≤ I) :
    ((wait_for_deployment checks target I T).1 = none →
      T ≤ (wait_for_deployment checks target I T).2) ∧
    (∃ n, (wait_for_deployment checks target I T).2 = n * I) ∧
    (wait_for_deployment (fun _ => none) "PUBLISHED" 2 3).1 = none ∧
    (wait_for_deployment (fun _ => none) "PUBLISHED" 2 3).2 = 4 := by
  refine ⟨?_, ?_, by decide, by decide⟩
  · intro hnone
    have hfuel : T ≤ 0 + (T + 1) * I := by
      have h2 : T + 1 ≤ (T + 1) * I := by
        calc T + 1 = (T + 1) * 1 := by ring
          _ ≤ (T + 1) * I := Nat.mul_le_mul_left (T + 1) hI
      linarith
    exact wait_go_timeout_le checks target I T (T + 1) 0 0 hfuel hnone
  · obtain ⟨n, hn⟩ := wait_go_elapsed checks target I T (T + 1) 0 0
    exact ⟨n, by simpa using hn⟩

theorem wait_sleep_restarts_full_interval_witness :
    ((wait_for_deployment (fun _ => none) "PUBLISHED" 2 3).1 = none →
      3 ≤ (wait_for_deployment (fun _ => none) "PUBLISHED" 2 3).2) ∧
    (∃ n, (wait_for_deployment (fun _ => none) "PUBLISHED" 2 3).2 = n * 2) ∧
    (wait_for_deployment (fun _ => none) "PUBLISHED" 2 3).1 = none ∧
    (wait_for_deployment (fun _ => none) "PUBLISHED" 2 3).2 = 4 :=
  wait_sleep_restarts_full_interval (fun _ => none) "PUBLISHED" 2 3 (by decide)

/-- C5: once the open has succeeded and a response was received, a 201 status
makes `upload_bundle` return the whitespace-trimmed response body as the
deployment identifier; any other status returns no identifier and reports an
error carrying exactly the status code and the raw body.  The two outcomes are
mutually exclusive by construction (one return value). -/
theorem upload_id_xor_error (r : HttpResponse) :
    (r.status_code = 201 →
      upload_bundle (PyResult.ret ⟨0⟩) (RequestResult.success r) =
        PyResult.ret ((some r.text.trim,
          ["Upload successful! Deployment ID: " ++ r.text.trim]), ⟨1⟩)) ∧
    (r.status_code ≠ 201 →
      upload_bundle (PyResult.ret ⟨0⟩) (RequestResult.success r) =
        PyResult.ret ((none,
          ["Error uploading bundle: " ++ toString r.status_code, r.text]), ⟨1⟩)) := by
  constructor <;> intro h <;>
    simp [upload_bundle, upload_after_open, tryExceptFinally, upload_try_block,
      upload_handle_response, FileHandle.close, h]

theorem upload_id_xor_error_witness :
    ((⟨201, " dep-123 "⟩ : HttpResponse).status_code = 201 ∧
      upload_bundle (PyResult.ret ⟨0⟩) (RequestResult.success ⟨201, " dep-123 "⟩) =
        PyResult.ret ((some (" dep-123 ").trim,
          ["Upload successful! Deployment ID: " ++ (" dep-123 ").trim]), ⟨1⟩)) ∧
    ((⟨500, "server error"⟩ : HttpResponse).status_code ≠ 201 ∧
      upload_bundle (PyResult.ret ⟨0⟩) (RequestResult.success ⟨500, "server error"⟩) =
        PyResult.ret ((none,
          ["Error uploading bundle: " ++ toString (500 : Nat), "server error"]), ⟨1⟩)) :=
  ⟨⟨rfl, (upload_id_xor_error ⟨201, " dep-123 "⟩).1 rfl⟩,
   ⟨by decide, (upload_id_xor_error ⟨500, "server error"⟩).2 (by decide)⟩⟩

/-- C6: whenever the open succeeded, the file handle is closed exactly once on
every exit path of `upload_bundle` — a 201 success, a non-201 response, and a
raised transport exception are all covered by quantifying over the request
outcome. -/
theorem upload_closes_handle_once (req : RequestResult) :
    (upload_after_open req ⟨0⟩).2.closes = 1 := by
  cases req with
  | raised msg => rfl
  | success r => rfl

/-- C7: publish succeeds exactly on a 204 response; any other response fails
with a report carrying the status code and raw body; in particular a 409
response fails with status 409 reported, and `main` does not chain
`wait_for_deployment` after that failure even when `--wait` was given. -/
theorem publish_success_iff_204 (r : HttpResponse) (wait_flag : Bool) :
    ((publish_deployment (RequestResult.success r)).1 = true ↔
      r.status_code = 204) ∧
    (r.status_code ≠ 204 →
      (publish_deployment (RequestResult.success r)).2 =
        ["Error publishing deployment: " ++ toString r.status_code, r.text]) ∧
    (publish_deployment (RequestResult.success ⟨409, r.text⟩)).1 = false ∧
    (publish_deployment (RequestResult.success ⟨409, r.text⟩)).2 =
      ["Error publishing deployment: " ++ toString (409 : Nat), r.text] ∧
    publish_command_invokes_wait (RequestResult.success ⟨409, r.text⟩) wait_flag =
      false := by
  refine ⟨?_, ?_, ?_, ?_, ?_⟩ <;>
    by_cases h : r.status_code = 204 <;>
      simp [publish_deployment, publish_command_invokes_wait, h]

theorem publish_success_iff_204_witness :
    (((publish_deployment (RequestResult.success ⟨409, "Conflict"⟩)).1 = true ↔
      (⟨409, "Conflict"⟩ : HttpResponse).status_code = 204) ∧
    ((⟨409, "Conflict"⟩ : HttpResponse).status_code ≠ 204 →
      (publish_deployment (RequestResult.success ⟨409, "Conflict"⟩)).2 =
        ["Error publishing deployment: " ++
          toString (⟨409, "Conflict"⟩ : HttpResponse).status_code, "Conflict"]) ∧
    (publish_deployment (RequestResult.success ⟨409, "Conflict"⟩)).1 = false ∧
    (publish_deployment (RequestResult.success ⟨409, "Conflict"⟩)).2 =
      ["Error publishing deployment: " ++ toString (409 : Nat), "Conflict"] ∧
    publish_command_invokes_wait (RequestResult.success ⟨409, "Conflict"⟩) true =
      false) :=
  publish_success_iff_204 ⟨409, "Conflict"⟩ true

/-- C10: when the `open` itself raises, `upload_bundle` propagates that
exception uncaught to its caller instead of returning a structured result;
the `except` handler and the `finally` close govern only what happens after a
successful open. -/
theorem upload_open_failure_propagates (msg : String) (req : RequestResult)
    (h : FileHandle) :
    upload_bundle (PyResult.raise msg) req = PyResult.raise msg ∧
    upload_bundle (PyResult.ret h) req = PyResult.ret (upload_after_open req h) :=
  ⟨rfl, rfl⟩

lemma b64char_value : ∀ n, n < 64 → b64value (b64char n) = n := by decide

lemma b64char_ne_pad : ∀ n, n < 64 → (b64char n != '=') = true := by decide

lemma char_toNat_lt (c : Char) : c.toNat < 1114112 := by
  rcases c.valid with h | h
  · exact lt_trans h (by norm_num)
  · exact h.2

lemma utf8CharBytes_lt (c : Char) : ∀ b ∈ utf8CharBytes c, b < 256 := by
  have hc := char_toNat_lt c
  intro b hb
  by_cases h1 : c.toNat < 128
  · simp [utf8CharBytes, h1] at hb
    omega
  · by_cases h2 : c.toNat < 2048
    · simp [utf8CharBytes, h1, h2] at hb
      rcases hb with hb | hb <;> omega
    · by_cases h3 : c.toNat < 65536
      · simp [utf8CharBytes, h1, h2, h3] at hb
        rcases hb with hb | hb | hb <;> omega
      · simp [utf8CharBytes, h1, h2, h3] at hb
        rcases hb with hb | hb | hb | hb <;> omega

lemma utf8Bytes_lt (s : String) : ∀ b ∈ utf8Bytes s, b < 256 := by
  intro b hb
  unfold utf8Bytes at hb
  rw [List.mem_flatMap] at hb
  obtain ⟨c, _, hc⟩ := hb
  exact utf8CharBytes_lt c b hc

lemma utf8Bytes_append (s t : String) :
    utf8Bytes (s ++ t) = utf8Bytes s ++ utf8Bytes t := by
  unfold utf8Bytes
  rw [String.data_append, List.flatMap_append]

/-- Base64 round trip: decoding an encoding of a byte sequence gives back the
bytes. -/
lemma b64_decode_encode : ∀ bs : List Nat, (∀ b ∈ bs, b < 256) →
    b64decode (b64encode bs) = bs := by
  intro bs
  induction bs using b64encode.induct with
  | case1 =>
    intro _
    rfl
  | case2 b1 =>
    intro h
    have hb1 : b1 < 256 := h b1 (by simp)
    have h1 : b1 / 4 < 64 := by omega
    have h2 : b1 % 4 * 16 < 64 := by omega
    simp [b64encode, b64decode, b64char_ne_pad _ h1, b64char_ne_pad _ h2,
      b64char_value _ h1, b64char_value _ h2, sextetsToBytes]
    omega
  | case3 b1 b2 =>
    intro h
    have hb1 : b1 < 256 := h b1 (by simp)
    have hb2 : b2 < 256 := h b2 (by simp)
    have h1 : b1 / 4 < 64 := by omega
    have h2 : b1 % 4 * 16 + b2 / 16 < 64 := by omega
    have h3 : b2 % 16 * 4 < 64 := by omega
    simp [b64encode, b64decode, b64char_ne_pad _ h1, b64char_ne_pad _ h2,
      b64char_ne_pad _ h3, b64char_value _ h1, b64char_value _ h2,
      b64char_value _ h3, sextetsToBytes]
    omega
  | case4 b1 b2 b3 rest ih =>
    intro h
    have hb1 : b1 < 256 := h b1 (by simp)
    have hb2 : b2 < 256 := h b2 (by simp)
    have hb3 : b3 < 256 := h b3 (by simp)
    have ih' := ih (fun b hb => h b (by simp [hb]))
    have h1 : b1 / 4 < 64 := by omega
    have h2 : b1 % 4 * 16 + b2 / 16 < 64 := by omega
    have h3 : b2 % 16 * 4 + b3 / 64 < 64 := by omega
    have h4 : b3 % 64 < 64 := by omega
    simp only [b64decode] at ih'
    simp [b64encode, b64decode, b64char_ne_pad _ h1, b64char_ne_pad _ h2,
      b64char_ne_pad _ h3, b64char_ne_pad _ h4, b64char_value _ h1,
      b64char_value _ h2, b64char_value _ h3, b64char_value _ h4,
      sextetsToBytes, ih']
    omega

/-- C8: the authorization header value is `"Bearer "` followed by the standard
base64 encoding of the UTF-8 bytes of `username`, one colon, `password`;
stripping that prefix and base64-decoding recovers exactly the UTF-8 bytes of
`username:password`; and for `("u", "p")` the decoded bytes are
`[117, 58, 112]`, exactly `"u:p"`. -/
theorem auth_header_roundtrip (username password : String) :
    ∃ payload : List Char,
      get_auth_header username password = "Bearer " ++ String.mk payload ∧
      b64decode payload = utf8Bytes (username ++ ":" ++ password) ∧
      utf8Bytes (username ++ ":" ++ password) =
        utf8Bytes username ++ [58] ++ utf8Bytes password ∧
      b64decode (b64encode (utf8Bytes ("u" ++ ":" ++ "p"))) = [117, 58, 112] := by
  refine ⟨b64encode (utf8Bytes (username ++ ":" ++ password)), rfl,
    b64_decode_encode _ (utf8Bytes_lt _), ?_, by decide⟩
  rw [utf8Bytes_append, utf8Bytes_append,
    show utf8Bytes ":" = [58] from by decide, List.append_assoc]
